import Mathlib

/-!
Shallow embedding of the core of the salgue441/tensor-library C++ repository:
the device identity and validation logic (src/core/device/device.cpp), the
device memory manager (src/core/device/device_memory.cpp), the device
properties cache (src/core/device/device_properties.cpp), the lazy expression
engine (include/tensor/core/expression.hpp, tensor_base.hpp) and the matrix
multiplication operations (include/tensor/ops/binary_ops.hpp,
matrix_ops.hpp).  C++ templates over a numeric type T are instantiated at
T = Int (exact integer arithmetic); machine pointers are modelled as natural
addresses issued by a fresh-address raw allocator so that releasing memory is
observable; maps guarded by a mutex are modelled as association lists
transformed under the lock.
-/

namespace TensorCpp

/-- Error kinds raised by the library (include/tensor/utils/exceptions.hpp
defines DeviceError).  The DimensionMismatch exception is thrown throughout
expression.hpp, tensor_base.hpp and the ops headers but its class definition
appears nowhere in the repository; modelled from the spec: the
DimensionMismatch / ShapeError error kind, carrying a message. -/
inductive TensorError where
  | DeviceError (msg : String)
  | DimensionMismatch (msg : String)
  deriving DecidableEq, Repr

/-- DeviceType from include/tensor/core/device/device_types.hpp. -/
inductive DeviceType where
  | CPU
  | CUDA
  deriving DecidableEq, Repr

/-- Device from include/tensor/core/device/device.hpp: a kind plus an index. -/
structure Device where
  m_type : DeviceType
  m_index : Int
  deriving DecidableEq, Repr

/-- Device::is_cpu. -/
def Device.is_cpu (d : Device) : Bool := d.m_type = DeviceType.CPU

/-- Device::is_cuda. -/
def Device.is_cuda (d : Device) : Bool := d.m_type = DeviceType.CUDA

/-- Device::validate_device (src/core/device/device.cpp, lines 33-56),
parameterized by whether accelerator support is compiled in (use_cuda, the
USE_CUDA build flag) and by the outcome of cudaGetDeviceCount (countQuery). -/
def validate_device (use_cuda : Bool) (countQuery : Except String Nat)
    (m_type : DeviceType) (m_index : Int) : Except TensorError Unit :=
  if m_type = DeviceType.CPU ∧ m_index ≠ -1 then
    .error (.DeviceError "CPU device index must be -1")
  else if m_type = DeviceType.CUDA then
    if m_index < 0 then
      .error (.DeviceError "CUDA device index must be non-negative")
    else if use_cuda then
      match countQuery with
      | .error _ => .error (.DeviceError "Failed to get CUDA device count")
      | .ok device_count =>
          if (device_count : Int) ≤ m_index then
            .error (.DeviceError ("Invalid CUDA device index: " ++ toString m_index))
          else .ok ()
    else
      .error (.DeviceError "CUDA support not enabled")
  else
    .ok ()

/-- The explicit constructor Device::Device(type, index)
(src/core/device/device.cpp, lines 17-24): validate_device runs on the stored
members first, and only afterwards is the index coerced to -1 for CPU. -/
def Device.make (use_cuda : Bool) (countQuery : Except String Nat)
    (t : DeviceType) (index : Int) : Except TensorError Device :=
  match validate_device use_cuda countQuery t index with
  | .error e => .error e
  | .ok _ => .ok ⟨t, if t = DeviceType.CPU then -1 else index⟩

/-- The explicit constructor invoked with the declared default argument
index = 0 (include/tensor/core/device/device.hpp, line 21). -/
def Device.makeDefault (use_cuda : Bool) (countQuery : Except String Nat)
    (t : DeviceType) : Except TensorError Device :=
  Device.make use_cuda countQuery t 0

/-- The default constructor Device() : m_type(CPU), m_index(-1); it performs
no validation. -/
def Device.cpuDefault : Device := ⟨DeviceType.CPU, -1⟩

/-- Tests whether a library call failed with the DeviceError kind. -/
def isDeviceError {α : Type} : Except TensorError α → Bool
  | .error (.DeviceError _) => true
  | _ => false

/-- C9: constructing a host device with any index other than the sentinel -1
raises DeviceError; constructing an accelerator device with a negative index
raises DeviceError; and when accelerator support is not compiled in,
constructing an accelerator device with any index fails unconditionally with
DeviceError. -/
theorem device_validation_c9 :
    (∀ (uc : Bool) (cq : Except String Nat) (idx : Int), idx ≠ -1 →
        isDeviceError (validate_device uc cq DeviceType.CPU idx) = true) ∧
    (∀ (uc : Bool) (cq : Except String Nat) (idx : Int), idx < 0 →
        isDeviceError (validate_device uc cq DeviceType.CUDA idx) = true) ∧
    (∀ (cq : Except String Nat) (idx : Int),
        isDeviceError (validate_device false cq DeviceType.CUDA idx) = true) := by
  refine ⟨?_, ?_, ?_⟩
  · intro uc cq idx h
    simp [validate_device, isDeviceError, h]
  · intro uc cq idx h
    simp [validate_device, isDeviceError, h]
  · intro cq idx
    by_cases h : idx < 0 <;> simp [validate_device, isDeviceError, h]

/-- Witness for device_validation_c9 at concrete inputs. -/
theorem device_validation_c9_witness :
    ((0 : Int) ≠ -1 ∧
      isDeviceError (validate_device true (.ok 4) DeviceType.CPU 0) = true) ∧
    ((-2 : Int) < 0 ∧
      isDeviceError (validate_device true (.ok 4) DeviceType.CUDA (-2)) = true) ∧
    isDeviceError (validate_device false (.ok 4) DeviceType.CUDA 3) = true :=
  ⟨⟨by decide, device_validation_c9.1 true (.ok 4) 0 (by decide)⟩,
   ⟨by decide, device_validation_c9.2.1 true (.ok 4) (-2) (by decide)⟩,
   device_validation_c9.2.2 (.ok 4) 3⟩

/-- C10: Device(DeviceType::CPU) with the declared default index 0 raises
DeviceError, because validation requires index -1 for CPU devices and runs
before the constructor coerces the index to -1; the default constructor
yields the valid host device, and the explicit constructor succeeds for CPU
kind only with index -1, producing that same device. -/
theorem device_cpu_default_index_c10 :
    (∀ (uc : Bool) (cq : Except String Nat),
        isDeviceError (Device.makeDefault uc cq DeviceType.CPU) = true) ∧
    (Device.cpuDefault.is_cpu = true ∧ Device.cpuDefault.m_index = -1 ∧
      ∀ (uc : Bool) (cq : Except String Nat),
        validate_device uc cq Device.cpuDefault.m_type Device.cpuDefault.m_index =
          .ok ()) ∧
    (∀ (uc : Bool) (cq : Except String Nat) (idx : Int) (d : Device),
        Device.make uc cq DeviceType.CPU idx = .ok d →
          idx = -1 ∧ d = Device.cpuDefault) := by
  refine ⟨?_, ⟨by decide, by decide, ?_⟩, ?_⟩
  · intro uc cq
    simp [Device.makeDefault, Device.make, validate_device, isDeviceError]
  · intro uc cq
    simp [validate_device, Device.cpuDefault]
  · intro uc cq idx d h
    by_cases hidx : idx = -1
    · subst hidx
      simp [Device.make, validate_device, Device.cpuDefault] at h
      exact ⟨rfl, h.symm⟩
    · simp [Device.make, validate_device, hidx] at h

/-- Witness for device_cpu_default_index_c10 at concrete inputs. -/
theorem device_cpu_default_index_c10_witness :
    isDeviceError (Device.makeDefault false (.ok 0) DeviceType.CPU) = true ∧
    (Device.make false (.ok 0) DeviceType.CPU (-1) = .ok Device.cpuDefault ∧
      ((-1 : Int) = -1 ∧ Device.cpuDefault = Device.cpuDefault)) :=
  ⟨device_cpu_default_index_c10.1 false (.ok 0),
   rfl,
   device_cpu_default_index_c10.2.2 false (.ok 0) (-1) Device.cpuDefault rfl⟩

/-- Association-list lookup, modelling std::unordered_map find. -/
def alookup {α β : Type} [DecidableEq α] : List (α × β) → α → Option β
  | [], _ => none
  | (a, b) :: rest, x => if a = x then some b else alookup rest x

/-- Association-list insert-or-assign, modelling writing through
std::unordered_map operator[] / emplace on a fresh key. -/
def aupdate {α β : Type} [DecidableEq α] : List (α × β) → α → β → List (α × β)
  | [], x, v => [(x, v)]
  | (a, b) :: rest, x, v =>
      if a = x then (x, v) :: rest else (a, b) :: aupdate rest x v

theorem alookup_aupdate {α β : Type} [DecidableEq α]
    (l : List (α × β)) (x : α) (v : β) (y : α) :
    alookup (aupdate l x v) y = if x = y then some v else alookup l y := by
  induction l with
  | nil => by_cases h : x = y <;> simp [aupdate, alookup, h]
  | cons hd tl ih =>
      obtain ⟨a, b⟩ := hd
      by_cases hax : a = x
      · subst hax
        by_cases hxy : a = y <;> simp [aupdate, alookup, hxy]
      · by_cases hay : a = y
        · subst hay
          have hxy : x ≠ a := fun h => hax h.symm
          simp [aupdate, alookup, hax, hxy]
        · simp [aupdate, alookup, hax, hay, ih]

/-- MemoryBlock from include/tensor/core/device/device_memory.hpp. -/
structure MemoryBlock where
  ptr : Nat
  size : Nat
  in_use : Bool
  deriving DecidableEq, Repr

/-- State of the DeviceMemory singleton together with the host raw allocator
it calls out to.  pools mirrors m_memory_pools (per-device block lists); the
raw allocator (posix_memalign / _aligned_malloc and free / _aligned_free) is
modelled by a fresh-address counter next and the list live of currently live
raw allocations as (address, size) pairs, so that releasing memory back to
the OS is observable. -/
structure MemState where
  pools : List (Device × List MemoryBlock)
  next : Nat
  live : List (Nat × Nat)
  deriving DecidableEq, Repr

/-- The device's block list as unordered_map operator[] sees it (an absent
key reads as an empty vector). -/
def blocksOf (pools : List (Device × List MemoryBlock)) (d : Device) :
    List MemoryBlock :=
  (alookup pools d).getD []

/-- The find_if / mark in_use step of DeviceMemory::get_from_pool
(device_memory.cpp, lines 173-183): first block in iteration order that is
not in use and at least as large as the request is flagged in_use and its
address returned. -/
def markFirstFit (size : Nat) : List MemoryBlock → Option Nat × List MemoryBlock
  | [] => (none, [])
  | blk :: rest =>
      if blk.in_use = false ∧ size ≤ blk.size then
        (some blk.ptr, ⟨blk.ptr, blk.size, true⟩ :: rest)
      else
        let r := markFirstFit size rest
        (r.1, blk :: r.2)

/-- DeviceMemory::get_from_pool (device_memory.cpp, lines 169-184): under the
manager mutex, m_memory_pools[device] materializes the device's entry, then
the first free fitting block is marked in-use and returned. -/
def get_from_pool (size : Nat) (d : Device)
    (pools : List (Device × List MemoryBlock)) :
    Option Nat × List (Device × List MemoryBlock) :=
  let r := markFirstFit size (blocksOf pools d)
  (r.1, aupdate pools d r.2)

/-- DeviceMemory::allocate (device_memory.cpp, lines 27-59) for the build
without USE_CUDA: size 0 returns the null pointer; otherwise the pool is
consulted, and on a miss a host (cpu) request performs a raw 64-byte-aligned
allocation — modelled as issuing the next fresh address and recording a live
raw allocation of exactly size bytes (allocation failure, an environment
condition, is not modelled).  For a non-cpu device the source has no branch
(the CUDA branch is compiled out), so the null from get_from_pool is
returned unchanged. -/
def allocate (size : Nat) (d : Device) (st : MemState) : Option Nat × MemState :=
  if size = 0 then (none, st)
  else
    let r := get_from_pool size d st.pools
    match r.1 with
    | some ptr => (some ptr, ⟨r.2, st.next, st.live⟩)
    | none =>
        if d.is_cpu then
          (some st.next, ⟨r.2, st.next + 1, (st.next, size) :: st.live⟩)
        else
          (none, ⟨r.2, st.next, st.live⟩)

/-- Removal of a raw allocation by the host allocator's free. -/
def freeRaw (p : Nat) : List (Nat × Nat) → List (Nat × Nat)
  | [] => []
  | (a, s) :: rest => if a = p then freeRaw p rest else (a, s) :: freeRaw p rest

/-- DeviceMemory::deallocate (device_memory.cpp, lines 69-93) for the build
without USE_CUDA: a null pointer is a no-op; a host pointer is released with
free / _aligned_free.  The function never touches m_memory_pools and never
calls return_to_pool. -/
def deallocate (ptr : Option Nat) (d : Device) (st : MemState) : MemState :=
  match ptr with
  | none => st
  | some p =>
      if d.is_cpu then ⟨st.pools, st.next, freeRaw p st.live⟩
      else st

/-- DeviceMemory::return_to_pool (device_memory.cpp, lines 195-211): marks the
matching block free, or records the pointer as a new free block.  The
function exists in the source but no function in the repository ever calls
it. -/
def return_to_pool (p : Nat) (size : Nat) (d : Device)
    (pools : List (Device × List MemoryBlock)) :
    List (Device × List MemoryBlock) :=
  aupdate pools d (returnBlock p size (blocksOf pools d))
where
  returnBlock (p : Nat) (size : Nat) : List MemoryBlock → List MemoryBlock
    | [] => [⟨p, size, false⟩]
    | blk :: rest =>
        if blk.ptr = p then ⟨blk.ptr, blk.size, false⟩ :: rest
        else blk :: returnBlock p size rest

/-- The host device value Device::CPU(). -/
def cpuDev : Device := ⟨DeviceType.CPU, -1⟩

/-- The DeviceMemory singleton's initial state: empty pool map, no live raw
allocations. -/
def initMem : MemState := ⟨[], 0, []⟩

/-- C1: evaluating the claimed allocate-deallocate-allocate sequence at
size 1024 on the host.  The code releases the raw memory in deallocate (the
live raw-allocation list becomes empty) and never marks any pool block free
(the device's pool block list stays empty, since deallocate never calls
return_to_pool), so the second allocate is not served from the pool: its
pool lookup misses and a fresh raw allocation is performed. -/
theorem pool_reuse_c1 :
    (allocate 1024 cpuDev initMem).1 = some 0 ∧
    (allocate 1024 cpuDev initMem).2.live = [(0, 1024)] ∧
    (deallocate (allocate 1024 cpuDev initMem).1 cpuDev
        (allocate 1024 cpuDev initMem).2).live = [] ∧
    blocksOf (deallocate (allocate 1024 cpuDev initMem).1 cpuDev
        (allocate 1024 cpuDev initMem).2).pools cpuDev = [] ∧
    (get_from_pool 1024 cpuDev
        (deallocate (allocate 1024 cpuDev initMem).1 cpuDev
          (allocate 1024 cpuDev initMem).2).pools).1 = none ∧
    (allocate 1024 cpuDev
        (deallocate (allocate 1024 cpuDev initMem).1 cpuDev
          (allocate 1024 cpuDev initMem).2)).1 = some 1 := by
  decide

/-- C2 counterexample: from the initial state, allocate(16, cpu) finds no
free pool block, returns a raw address, and afterwards the device's pool
contains no block at all — nothing was appended and nothing was marked
in-use, refuting at this input the claim that a new block of size at least
max(size, pool_total / 2) is appended to the pool and marked in-use. -/
theorem allocate_growth_c2_counterexample :
    (get_from_pool 16 cpuDev initMem.pools).1 = none ∧
    (allocate 16 cpuDev initMem).1 = some 0 ∧
    blocksOf (allocate 16 cpuDev initMem).2.pools cpuDev = [] := by
  decide

theorem markFirstFit_none (size : Nat) (pool : List MemoryBlock)
    (h : (markFirstFit size pool).1 = none) :
    (markFirstFit size pool).2 = pool := by
  induction pool with
  | nil => rfl
  | cons blk rest ih =>
      by_cases hb : blk.in_use = false ∧ size ≤ blk.size
      · simp [markFirstFit, hb] at h
      · simp [markFirstFit, hb] at h ⊢
        exact ih h

theorem blocksOf_aupdate_self (pools : List (Device × List MemoryBlock))
    (d d' : Device) :
    blocksOf (aupdate pools d (blocksOf pools d)) d' = blocksOf pools d' := by
  unfold blocksOf
  rw [alookup_aupdate]
  by_cases h : d = d'
  · subst h
    cases alookup pools d <;> simp
  · simp [h]

/-- C2 amended: whenever allocate(size, device) finds no free pool block of
sufficient size for the host device, it performs a raw allocation of exactly
size bytes and returns its fresh address; no block is appended to the
device's pool and nothing is marked in-use — every device's pool block list
is exactly as before. -/
theorem allocate_pool_miss_c2 (size : Nat) (d : Device) (st : MemState)
    (hs : 0 < size) (hcpu : d.is_cpu = true)
    (hmiss : (get_from_pool size d st.pools).1 = none) :
    (allocate size d st).1 = some st.next ∧
    (allocate size d st).2.live = (st.next, size) :: st.live ∧
    (allocate size d st).2.next = st.next + 1 ∧
    ∀ d', blocksOf (allocate size d st).2.pools d' = blocksOf st.pools d' := by
  have hsz : size ≠ 0 := Nat.pos_iff_ne_zero.mp hs
  have hpool : (markFirstFit size (blocksOf st.pools d)).1 = none := hmiss
  have hsame : (markFirstFit size (blocksOf st.pools d)).2 = blocksOf st.pools d :=
    markFirstFit_none size _ hpool
  have halloc :
      allocate size d st =
        (some st.next,
          ⟨aupdate st.pools d (blocksOf st.pools d), st.next + 1,
            (st.next, size) :: st.live⟩) := by
    simp [allocate, get_from_pool, hsz, hpool, hsame, hcpu]
  refine ⟨?_, ?_, ?_, ?_⟩
  · rw [halloc]
  · rw [halloc]
  · rw [halloc]
  · intro d'
    rw [halloc]
    exact blocksOf_aupdate_self st.pools d d'

/-- Witness for allocate_pool_miss_c2 at concrete inputs. -/
theorem allocate_pool_miss_c2_witness :
    (0 < 16 ∧ cpuDev.is_cpu = true ∧
      (get_from_pool 16 cpuDev initMem.pools).1 = none) ∧
    (allocate 16 cpuDev initMem).1 = some initMem.next ∧
    (allocate 16 cpuDev initMem).2.live = (initMem.next, 16) :: initMem.live ∧
    blocksOf (allocate 16 cpuDev initMem).2.pools cpuDev =
      blocksOf initMem.pools cpuDev :=
  ⟨⟨by decide, by decide, by decide⟩,
   (allocate_pool_miss_c2 16 cpuDev initMem (by decide) (by decide) (by decide)).1,
   (allocate_pool_miss_c2 16 cpuDev initMem (by decide) (by decide) (by decide)).2.1,
   (allocate_pool_miss_c2 16 cpuDev initMem (by decide) (by decide) (by decide)).2.2.2
     cpuDev⟩

/-- DeviceInfo from include/tensor/core/device/device_properties.hpp: the
per-device capability descriptor. -/
structure DeviceInfo where
  memory_capacity : Nat
  max_threads_per_block : Nat
  warp_size : Nat
  max_shared_memory : Nat
  max_grid_size : Nat × Nat × Nat
  max_block_size : Nat × Nat × Nat
  compute_capability_major : Int
  compute_capability_minor : Int
  unified_addressing : Bool
  name : String
  deriving DecidableEq, Repr

/-- The value-initialized DeviceInfo the source emplaces before filling it:
every member has its declared zero / false / empty initializer. -/
def defaultInfo : DeviceInfo :=
  ⟨0, 0, 0, 0, (0, 0, 0), (0, 0, 0), 0, 0, false, ""⟩

/-- The host branch of DeviceProperties::init_info (device_properties.cpp,
lines 43-58); hw is std::thread::hardware_concurrency(), an environment
parameter. -/
def hostInfo (hw : Nat) : DeviceInfo :=
  ⟨0, hw, 1, 0, (1, 1, 1), (1, 1, 1), 0, 0, false, "CPU"⟩

/-- DeviceProperties::init_info (device_properties.cpp, lines 41-88),
parameterized by the USE_CUDA build flag and by the device-capability query:
query absorbs cudaGetDeviceProperties together with the subsequent
field-by-field assignment, returning the resulting DeviceInfo or the CUDA
error string.  The host branch fills the host values; the accelerator branch
raises DeviceError when the query fails; without USE_CUDA the accelerator
branch is compiled out and the passed-in info is left untouched. -/
def init_info (use_cuda : Bool) (hw : Nat)
    (query : Device → Except String DeviceInfo) (d : Device)
    (info : DeviceInfo) : Except TensorError DeviceInfo :=
  if d.is_cpu then .ok (hostInfo hw)
  else if use_cuda ∧ d.is_cuda then
    match query d with
    | .error e =>
        .error (.DeviceError ("Failed to get CUDA device properties: " ++ e))
    | .ok p => .ok p
  else .ok info

/-- DeviceProperties::get_info (device_properties.cpp, lines 18-32): under the
cache mutex, look the device up; if absent, emplace a value-initialized entry
FIRST, then run init_info on it.  When init_info throws, the exception
propagates to the caller while the emplaced default entry remains in the map
(there is no rollback); on success the filled entry is returned.  The
returned pair is (result, cache state after the call). -/
def get_info (use_cuda : Bool) (hw : Nat)
    (query : Device → Except String DeviceInfo) (d : Device)
    (cache : List (Device × DeviceInfo)) :
    Except TensorError DeviceInfo × List (Device × DeviceInfo) :=
  match alookup cache d with
  | some info => (.ok info, cache)
  | none =>
      let cache1 := aupdate cache d defaultInfo
      match init_info use_cuda hw query d defaultInfo with
      | .error e => (.error e, cache1)
      | .ok info => (.ok info, aupdate cache1 d info)

/-- C8: after a successful get_info(d), the entry is present in the cache,
and a second get_info(d) returns that same cached entry and leaves the cache
state completely unchanged (the populate-and-insert step ran at most once);
moreover the first call disturbed no other device's entry. -/
theorem get_info_eq_hit (uc : Bool) (hw : Nat)
    (query : Device → Except String DeviceInfo) (d : Device)
    (c : List (Device × DeviceInfo)) (info : DeviceInfo)
    (h : alookup c d = some info) :
    get_info uc hw query d c = (.ok info, c) := by
  simp [get_info, h]

theorem get_info_eq_miss_ok (uc : Bool) (hw : Nat)
    (query : Device → Except String DeviceInfo) (d : Device)
    (c : List (Device × DeviceInfo)) (info : DeviceInfo)
    (h : alookup c d = none)
    (hi : init_info uc hw query d defaultInfo = .ok info) :
    get_info uc hw query d c =
      (.ok info, aupdate (aupdate c d defaultInfo) d info) := by
  simp [get_info, h, hi]

theorem get_info_eq_miss_err (uc : Bool) (hw : Nat)
    (query : Device → Except String DeviceInfo) (d : Device)
    (c : List (Device × DeviceInfo)) (e : TensorError)
    (h : alookup c d = none)
    (hi : init_info uc hw query d defaultInfo = .error e) :
    get_info uc hw query d c = (.error e, aupdate c d defaultInfo) := by
  simp [get_info, h, hi]

theorem get_info_cache_stable_c8 (uc : Bool) (hw : Nat)
    (query : Device → Except String DeviceInfo) (d : Device)
    (cache : List (Device × DeviceInfo)) (info : DeviceInfo)
    (h : (get_info uc hw query d cache).1 = .ok info) :
    alookup (get_info uc hw query d cache).2 d = some info ∧
    get_info uc hw query d (get_info uc hw query d cache).2 =
      (.ok info, (get_info uc hw query d cache).2) ∧
    ∀ d', d' ≠ d →
      alookup (get_info uc hw query d cache).2 d' = alookup cache d' := by
  cases hc : alookup cache d with
  | some v =>
      have he := get_info_eq_hit uc hw query d cache v hc
      rw [he] at h
      have hv : v = info := by simpa using h
      subst hv
      rw [he]
      exact ⟨hc, get_info_eq_hit uc hw query d cache v hc, fun d' _ => rfl⟩
  | none =>
      cases hi : init_info uc hw query d defaultInfo with
      | error e =>
          rw [get_info_eq_miss_err uc hw query d cache e hc hi] at h
          simp at h
      | ok v =>
          have he := get_info_eq_miss_ok uc hw query d cache v hc hi
          rw [he] at h
          have hv : v = info := by simpa using h
          subst hv
          rw [he]
          have hfound :
              alookup (aupdate (aupdate cache d defaultInfo) d v) d = some v := by
            rw [alookup_aupdate]
            simp
          refine ⟨hfound, ?_, ?_⟩
          · exact get_info_eq_hit uc hw query d _ v hfound
          · intro d' hd'
            show alookup (aupdate (aupdate cache d defaultInfo) d v) d' =
              alookup cache d'
            rw [alookup_aupdate, alookup_aupdate]
            have hdd : d ≠ d' := fun hdd => hd' hdd.symm
            simp [hdd]

/-- Witness for get_info_cache_stable_c8 at concrete inputs: the host device,
an empty cache, and a query that never succeeds (unused on the host path). -/
theorem get_info_cache_stable_c8_witness :
    ((get_info false 8 (fun _ => .error "down") cpuDev []).1 = .ok (hostInfo 8)) ∧
    alookup (get_info false 8 (fun _ => .error "down") cpuDev []).2 cpuDev =
      some (hostInfo 8) ∧
    get_info false 8 (fun _ => .error "down") cpuDev
        (get_info false 8 (fun _ => .error "down") cpuDev []).2 =
      (.ok (hostInfo 8), (get_info false 8 (fun _ => .error "down") cpuDev []).2) :=
  ⟨rfl,
   (get_info_cache_stable_c8 false 8 (fun _ => .error "down") cpuDev [] (hostInfo 8)
      rfl).1,
   (get_info_cache_stable_c8 false 8 (fun _ => .error "down") cpuDev [] (hostInfo 8)
      rfl).2.1⟩

/-- The accelerator device cuda:0. -/
def cudaDev0 : Device := ⟨DeviceType.CUDA, 0⟩

/-- A capability query that always fails. -/
def qFail : Device → Except String DeviceInfo := fun _ => .error "query failed"

/-- C4 counterexample: with a capability query that always fails, the first
get_info(cuda:0) propagates DeviceError but leaves the default-initialized
entry emplaced in the cache — the cache is NOT left unchanged — and a second
get_info(cuda:0) succeeds, returning that partially initialized default
entry without re-attempting the (always failing) query. -/
theorem get_info_partial_cache_c4_counterexample :
    (get_info true 8 qFail cudaDev0 []).1 =
      .error (.DeviceError "Failed to get CUDA device properties: query failed") ∧
    (get_info true 8 qFail cudaDev0 []).2 = [(cudaDev0, defaultInfo)] ∧
    (get_info true 8 qFail cudaDev0 [(cudaDev0, defaultInfo)]).1 =
      .ok defaultInfo := by
  refine ⟨rfl, rfl, rfl⟩

/-- C4 amended: if the capability query inside get_info(device) fails, the
DeviceError propagates to the caller, but the default-initialized DeviceInfo
entry emplaced before the query remains in the cache; a subsequent
get_info(device) returns that partially initialized entry without
re-attempting the query. -/
theorem get_info_error_caches_default_c4 (hw : Nat)
    (query : Device → Except String DeviceInfo) (d : Device)
    (cache : List (Device × DeviceInfo)) (msg : String)
    (habsent : alookup cache d = none) (hcuda : d.is_cuda = true)
    (hq : query d = .error msg) :
    (get_info true hw query d cache).1 =
      .error (.DeviceError ("Failed to get CUDA device properties: " ++ msg)) ∧
    (get_info true hw query d cache).2 = aupdate cache d defaultInfo ∧
    get_info true hw query d (aupdate cache d defaultInfo) =
      (.ok defaultInfo, aupdate cache d defaultInfo) := by
  have hcpu : d.is_cpu = false := by
    unfold Device.is_cuda at hcuda
    unfold Device.is_cpu
    have ht : d.m_type = DeviceType.CUDA := by
      by_cases h : d.m_type = DeviceType.CUDA
      · exact h
      · simp [h] at hcuda
    simp [ht]
  have hinit :
      init_info true hw query d defaultInfo =
        .error (.DeviceError ("Failed to get CUDA device properties: " ++ msg)) := by
    simp [init_info, hcpu, hcuda, hq]
  refine ⟨?_, ?_, ?_⟩
  · simp [get_info, habsent, hinit]
  · simp [get_info, habsent, hinit]
  · have : alookup (aupdate cache d defaultInfo) d = some defaultInfo := by
      rw [alookup_aupdate]
      simp
    simp [get_info, this]

/-- Witness for get_info_error_caches_default_c4 at concrete inputs. -/
theorem get_info_error_caches_default_c4_witness :
    (alookup ([] : List (Device × DeviceInfo)) cudaDev0 = none ∧
      cudaDev0.is_cuda = true ∧ qFail cudaDev0 = .error "query failed") ∧
    (get_info true 8 qFail cudaDev0 []).1 =
      .error (.DeviceError "Failed to get CUDA device properties: query failed") ∧
    get_info true 8 qFail cudaDev0 (aupdate [] cudaDev0 defaultInfo) =
      (.ok defaultInfo, aupdate [] cudaDev0 defaultInfo) :=
  ⟨⟨rfl, by decide, rfl⟩,
   (get_info_error_caches_default_c4 8 qFail cudaDev0 [] "query failed" rfl
      (by decide) rfl).1,
   (get_info_error_caches_default_c4 8 qFail cudaDev0 [] "query failed" rfl
      (by decide) rfl).2.2⟩

/-- The heap of TensorStorage buffers.  Tensor handles hold shared_ptr
references into it, modelled as indices, so that several handles can alias
one buffer. -/
abbrev Store := List (List Int)

/-- Tensor from include/tensor/core/tensor_base.hpp: the shape and the
shared_ptr to the TensorStorage, modelled as the storage's index in the
heap.  Rank is a compile-time parameter in the source; the shape list's
length plays that role here. -/
structure Tensor where
  shape : List Nat
  storageId : Nat
  deriving DecidableEq, Repr

/-- Tensor::compute_size: std::accumulate of the shape with multiplication
from 1. -/
def compute_size (shape : List Nat) : Nat := shape.foldl (fun a b => a * b) 1

/-- The storage buffer a tensor's shared_ptr points to. -/
def storageOf (s : Store) (t : Tensor) : List Int := s.getD t.storageId []

/-- Tensor::size: storage_->size(). -/
def Tensor.size (s : Store) (t : Tensor) : Nat := (storageOf s t).length

/-- Tensor::operator[] const: unchecked read of storage element i (an
out-of-range read is undefined behavior in the source; modelled as 0). -/
def Tensor.read (s : Store) (t : Tensor) (i : Nat) : Int :=
  (storageOf s t).getD i 0

/-- The Tensor shape constructor: allocates a fresh value-initialized
storage of compute_size(shape) elements in the heap. -/
def newTensor (shape : List Nat) (s : Store) : Tensor × Store :=
  (⟨shape, s.length⟩, s ++ [List.replicate (compute_size shape) 0])

/-- Copying a Tensor invokes the implicitly generated copy constructor,
which copies shape_ and the shared_ptr storage_: the new handle references
the same TensorStorage and the heap is untouched — no new buffer is
allocated. -/
def Tensor.copy (t : Tensor) (s : Store) : Tensor × Store :=
  (⟨t.shape, t.storageId⟩, s)

/-- Expression trees from include/tensor/core/expression.hpp: a node is a
Tensor leaf (TensorExpression capability of Tensor), a BinaryExpression
holding const references to its two operands, or a UnaryExpression.  The C++
operator tag types are instantiated as integer functions. -/
inductive Expr where
  | tensor (t : Tensor)
  | binary (op : Int → Int → Int) (lhs rhs : Expr)
  | unary (op : Int → Int) (e : Expr)

/-- Expression size: a Tensor leaf reports its storage size; BinaryExpression
::size returns lhs_.size(); UnaryExpression::size returns expr_.size(). -/
def Expr.size (s : Store) : Expr → Nat
  | .tensor t => Tensor.size s t
  | .binary _ lhs _ => lhs.size s
  | .unary _ e => e.size s

/-- Expression indexing, evaluated against the heap at access time:
BinaryExpression::operator[] computes op.apply(lhs_[i], rhs_[i]) freshly on
every access, UnaryExpression::operator[] computes op.apply(expr_[i]). -/
def Expr.get (s : Store) : Expr → Nat → Int
  | .tensor t, i => Tensor.read s t i
  | .binary op lhs rhs, i => op (lhs.get s i) (rhs.get s i)
  | .unary op e, i => op (e.get s i)

/-- The BinaryExpression constructor (expression.hpp, lines 83-89): stores
the operand references and immediately checks lhs_.size() == rhs_.size(),
throwing DimensionMismatch otherwise — fail-fast, at construction time. -/
def mkBinaryExpression (op : Int → Int → Int) (lhs rhs : Expr) (s : Store) :
    Except TensorError Expr :=
  if lhs.size s ≠ rhs.size s then
    .error (.DimensionMismatch "Binary operation dimension mismatch")
  else .ok (.binary op lhs rhs)

/-- C5: constructing BinaryExpression(op, a, b) raises DimensionMismatch
exactly when a.size() != b.size(), at construction time; with equal sizes,
indexing the expression at any i returns op.apply(a[i], b[i]), recomputed
from the operands' storage as it stands at each access (the quantification
over the access-time heap s'). -/
theorem binary_expression_c5 (op : Int → Int → Int) (lhs rhs : Expr)
    (s : Store) :
    (lhs.size s ≠ rhs.size s →
      mkBinaryExpression op lhs rhs s =
        .error (.DimensionMismatch "Binary operation dimension mismatch")) ∧
    (lhs.size s = rhs.size s →
      mkBinaryExpression op lhs rhs s = .ok (.binary op lhs rhs) ∧
      ∀ (s' : Store) (i : Nat),
        Expr.get s' (.binary op lhs rhs) i = op (lhs.get s' i) (rhs.get s' i)) := by
  constructor
  · intro h
    simp [mkBinaryExpression, h]
  · intro h
    exact ⟨by simp [mkBinaryExpression, h], fun s' i => rfl⟩

/-- The operand store for the C5 witness: two 3-element buffers. -/
def sW : Store := [[1, 2, 3], [2, 3, 4]]

/-- Integer addition standing for the Add operator tag. -/
def intAdd : Int → Int → Int := fun a b => a + b

/-- Witness for binary_expression_c5 at concrete inputs. -/
theorem binary_expression_c5_witness :
    Expr.size sW (.tensor ⟨[3], 0⟩) = Expr.size sW (.tensor ⟨[3], 1⟩) ∧
    mkBinaryExpression intAdd (.tensor ⟨[3], 0⟩) (.tensor ⟨[3], 1⟩) sW =
      .ok (.binary intAdd (.tensor ⟨[3], 0⟩) (.tensor ⟨[3], 1⟩)) ∧
    Expr.get sW (.binary intAdd (.tensor ⟨[3], 0⟩) (.tensor ⟨[3], 1⟩)) 1 =
      intAdd (Expr.get sW (.tensor ⟨[3], 0⟩) 1) (Expr.get sW (.tensor ⟨[3], 1⟩) 1) :=
  ⟨by decide,
   ((binary_expression_c5 intAdd (.tensor ⟨[3], 0⟩) (.tensor ⟨[3], 1⟩) sW).2
      (by decide)).1,
   ((binary_expression_c5 intAdd (.tensor ⟨[3], 0⟩) (.tensor ⟨[3], 1⟩) sW).2
      (by decide)).2 sW 1⟩

/-- Writing one element of one storage buffer in the heap. -/
def setVal (s : Store) (sid i : Nat) (v : Int) : Store :=
  s.set sid ((s.getD sid []).set i v)

/-- Tensor::evaluate, the body of operator= from an expression
(tensor_base.hpp, lines 115-125): validate expression.size() == size(),
raising DimensionMismatch otherwise, then std::copy the expression's
elements into the storage — element e[i] is computed and written for
i = 0..size-1 in index order, each read against the heap as already updated
by the earlier writes.  Modelled from the spec: the source's expression
begin/end iterators themselves (TensorExpression's iterator alias const T*
and BinaryExpression::begin returning iterator(this, 0)) are ill-formed
C++ and cannot be instantiated; the spec's index-order iteration contract
stands in for them. -/
def copyAssign (t : Tensor) (e : Expr) (s : Store) : Except TensorError Store :=
  if e.size s ≠ Tensor.size s t then
    .error (.DimensionMismatch "Expression size mismatch in assignment")
  else
    .ok ((List.range (e.size s)).foldl
      (fun acc i => setVal acc t.storageId i (e.get acc i)) s)

/-- The heap for the C6 evaluation: operand buffers 0 and 1, a 3-element
destination buffer 2 and a 2-element buffer 3 for the mismatch case. -/
def sC6 : Store := [[1, 2, 3], [2, 3, 4], [0, 0, 0], [0, 0]]

/-- The expression a + b over buffers 0 and 1. -/
def eAddC6 : Expr := .binary intAdd (.tensor ⟨[3], 0⟩) (.tensor ⟨[3], 1⟩)

/-- C6: evaluating the source's assignment logic at the failing input of the
claim: with equal sizes the elements op(a[i], b[i]) are computed and copied
into the destination storage in index order (buffer 2 becomes [3, 5, 7]),
and with e.size() != t.size() a DimensionMismatch is raised.  This is the
behavior of evaluate's own body; the surrounding iterator plumbing it calls
cannot be compiled, which is the defect recorded for this claim. -/
theorem evaluate_assignment_c6 :
    copyAssign ⟨[3], 2⟩ eAddC6 sC6 =
      .ok [[1, 2, 3], [2, 3, 4], [3, 5, 7], [0, 0]] ∧
    copyAssign ⟨[2], 3⟩ eAddC6 sC6 =
      .error (.DimensionMismatch "Expression size mismatch in assignment") := by
  constructor
  · rfl
  · rfl

/-- The heap for the C7 evaluation: buffer 0 aliased by both handles and an
operand buffer 1. -/
def sC7 : Store := [[1, 2, 3], [2, 3, 4]]

/-- The expression y + y over buffer 1, assigned into the aliased buffer 0. -/
def eAddC7 : Expr := .binary intAdd (.tensor ⟨[3], 1⟩) (.tensor ⟨[3], 1⟩)

/-- C7: b := copy of a shares a's buffer — the copy allocates nothing (the
heap is unchanged) and holds the same storage reference; assigning an
expression of matching size into a overwrites that shared buffer, and the
subsequent element reads through b observe the newly written values
4, 6, 8. -/
theorem tensor_copy_aliasing_c7 :
    (Tensor.copy ⟨[3], 0⟩ sC7).2 = sC7 ∧
    (Tensor.copy ⟨[3], 0⟩ sC7).1.storageId = (⟨[3], 0⟩ : Tensor).storageId ∧
    copyAssign ⟨[3], 0⟩ eAddC7 sC7 = .ok [[4, 6, 8], [2, 3, 4]] ∧
    Tensor.read [[4, 6, 8], [2, 3, 4]] (Tensor.copy ⟨[3], 0⟩ sC7).1 0 = 4 ∧
    Tensor.read [[4, 6, 8], [2, 3, 4]] (Tensor.copy ⟨[3], 0⟩ sC7).1 1 = 6 ∧
    Tensor.read [[4, 6, 8], [2, 3, 4]] (Tensor.copy ⟨[3], 0⟩ sC7).1 2 = 8 := by
  refine ⟨rfl, rfl, rfl, rfl, rfl, rfl⟩

/-- A rank-2 tensor as the matrix operations see it: the shape entries
(rows, cols) and the flat row-major storage contents.  Out-of-range reads
(undefined behavior in the source) are modelled as reading 0, out-of-range
writes as dropped; the theorems below evaluate the kernels only at shapes
where the accesses they compare are in bounds. -/
structure Tensor2 where
  rows : Nat
  cols : Nat
  data : List Int
  deriving DecidableEq, Repr

/-- Matrix multiplication contract stated by the spec:
result[i][j] = sum over k of lhs[i][k] * rhs[k][j]. -/
def matmulSpecEntry (a b : Tensor2) (i j : Nat) : Int :=
  ((List.range a.cols).map (fun k =>
    a.data.getD (i * a.cols + k) 0 * b.data.getD (k * b.cols + j) 0)).sum

/-- matrix_multiply (include/tensor/ops/matrix_ops.hpp, lines 19-46):
validate shape_a[1] == shape_b[0], allocate a value-initialized result of
shape (rows_a, cols_b), and for each (i, j) accumulate
sum += a[i * cols_a + k] * b[k * cols_b + j] over k, storing the sum at
result[i * cols_b + j]. -/
def matrix_multiply (a b : Tensor2) : Except TensorError Tensor2 :=
  if a.cols ≠ b.rows then
    .error (.DimensionMismatch "Invalid dimensions for matrix operation")
  else
    .ok ⟨a.rows, b.cols,
      (List.range a.rows).foldl (fun res i =>
        (List.range b.cols).foldl (fun res j =>
          res.set (i * b.cols + j)
            ((List.range a.cols).foldl (fun sum k =>
              sum + a.data.getD (i * a.cols + k) 0 *
                b.data.getD (k * b.cols + j) 0) 0)) res)
        (List.replicate (a.rows * b.cols) 0)⟩

/-- The loop heads of the blocked kernel: the values s, s + step, ... below
e, as iterated by for (x = s; x < e; x += step). -/
def blockStartsFrom (s e step : Nat) : List Nat :=
  List.range' s ((e - s + step - 1) / step) step

/-- One lane of the SIMD accumulation in operator%: the value lane l of the
vector sum for output cell (ii, jj + l) over the CURRENT k-block only —
sum = add(sum, mul(set1(lhs[ii * K + kk]), loadu(rhs[kk * n + jj])[l]))
for kk in [k, kEnd). -/
def simdLane (lhs rhs : Tensor2) (ii jj k kEnd lane : Nat) : Int :=
  (List.range' k (kEnd - k)).foldl
    (fun sum kk =>
      sum + lhs.data.getD (ii * lhs.cols + kk) 0 *
        rhs.data.getD (kk * rhs.cols + (jj + lane)) 0) 0

/-- operator% (include/tensor/ops/binary_ops.hpp, lines 19-63): validate
lhs_shape[1] == rhs_shape[0]; allocate a value-initialized result of shape
(m, n); iterate row-blocks i, column-blocks j and depth-blocks k of width
BLOCK_SIZE = 32; within a block iterate rows ii, vector groups jj of 8
lanes; accumulate each group's vector sum over the block's kk range and
_mm256_storeu_ps it to result[ii * n + jj] — the store OVERWRITES whatever
the previous k-block left there; nothing accumulates across k-blocks. -/
def opPercent (lhs rhs : Tensor2) : Except TensorError Tensor2 :=
  if lhs.cols ≠ rhs.rows then
    .error (.DimensionMismatch "Invalid dimensions for matrix multiplication")
  else
    .ok ⟨lhs.rows, rhs.cols,
      (blockStartsFrom 0 lhs.rows 32).foldl (fun res i =>
        (blockStartsFrom 0 rhs.cols 32).foldl (fun res j =>
          (blockStartsFrom 0 lhs.cols 32).foldl (fun res k =>
            (List.range' i (min (i + 32) lhs.rows - i)).foldl (fun res ii =>
              (blockStartsFrom j (min (j + 32) rhs.cols) 8).foldl (fun res jj =>
                (List.range 8).foldl (fun res lane =>
                  res.set (ii * rhs.cols + (jj + lane))
                    (simdLane lhs rhs ii jj k (min (k + 32) lhs.cols) lane))
                  res) res) res) res) res)
        (List.replicate (lhs.rows * rhs.cols) 0)⟩

/-- The 2-by-2 example matrices of the claim. -/
def aC3 : Tensor2 := ⟨2, 2, [1, 2, 3, 4]⟩

/-- The second 2-by-2 example matrix of the claim. -/
def bC3 : Tensor2 := ⟨2, 2, [2, 0, 1, 3]⟩

/-- A 1-by-33 all-ones matrix: the inner dimension 33 exceeds one 32-wide
k-block. -/
def lhsC3 : Tensor2 := ⟨1, 33, List.replicate 33 1⟩

/-- A 33-by-8 all-ones matrix: 8 columns keep every 8-lane SIMD access in
bounds. -/
def rhsC3 : Tensor2 := ⟨33, 8, List.replicate 264 1⟩

/-- C3: evaluating both multiplication kernels at the failing input.  For
the 1-by-33 times 33-by-8 all-ones product — chosen so that every SIMD lane
access is in bounds — operator% returns 1 in every cell (only the last
k-block's partial sum survives the overwriting store), while the spec
contract, and matrix_multiply, give 33; matrix_multiply also reproduces the
claim's 2-by-2 example. -/
theorem matmul_c3 :
    opPercent lhsC3 rhsC3 = .ok ⟨1, 8, List.replicate 8 1⟩ ∧
    matmulSpecEntry lhsC3 rhsC3 0 0 = 33 ∧
    (List.replicate 8 (1 : Int)).getD 0 0 ≠ matmulSpecEntry lhsC3 rhsC3 0 0 ∧
    matrix_multiply lhsC3 rhsC3 = .ok ⟨1, 8, List.replicate 8 33⟩ ∧
    matrix_multiply aC3 bC3 = .ok ⟨2, 2, [4, 6, 10, 12]⟩ := by
  refine ⟨rfl, by decide, by decide, rfl, rfl⟩

end TensorCpp
